import Mathlib

/-!
Shallow embedding of `backend/monitoring/contract_monitor.py` (class
`ContractMonitor`): the per-contract monitoring loop, the threat evaluator
`analyze_transaction`, the log fetcher `get_contract_transactions`, the
notification dispatcher `send_notifications`, the sleep-time table
`get_sleep_time`, and the supervisor `start_monitoring`.

External collaborators (web3 RPC, the database session, the email
transport) are modelled as explicit inputs: RPC results and failure points
are fields of `MonitorEnv`, the persisted database is `DB`, and the
session is modelled by building the pending writes and applying them to
`DB` only when the commit succeeds, matching the scoped-session semantics
of the source. Block numbers are `Int` (Python integers; the default
window start `current_block - 100` may go negative). Machine overflow does
not arise: Python integers are unbounded.
-/

namespace ContractMonitor

/-- A detected threat: `type` and `description` strings, exactly the dict
`{'type': ..., 'description': ...}` built in `analyze_transaction`. -/
structure Threat where
  type : String
  description : String
deriving DecidableEq, Repr

/-- An `Alert` row as created in `monitor_contract` (lines 193-199):
`contract_id`, `type`, `description`. -/
structure Alert where
  contract_id : Nat
  type : String
  description : String
deriving DecidableEq, Repr

/-- The fields of a `Contract` record that `monitor_contract` reads or
writes: `id`, `address`, `network`, `status`, `threat_level`,
`monitoring_frequency`. -/
structure Contract where
  id : Nat
  address : String
  network : String
  status : String
  threat_level : String
  monitoring_frequency : String
deriving DecidableEq, Repr

/-- A log entry returned by `web3.eth.get_logs`. The only field the
source reads is `transactionHash` (line 73); `none` models a record
missing the key (in Python the `get` default is the string `''`, and
calling `.hex()` on a `str` raises `AttributeError`, which the
surrounding `except` catches). -/
structure LogEntry where
  transactionHash : Option String
deriving DecidableEq, Repr

/-- The fields of `web3.eth.get_transaction` output read by the source:
`value` in wei (line 85, `tx_details.get('value', 0)` defaults to 0, so
the field is total). -/
structure TxDetails where
  value : Nat
deriving DecidableEq, Repr

/-- The fields of a transaction receipt read by the source: `status`
(line 94) and `gasUsed` (line 103, defaulting to 0). -/
structure Receipt where
  status : Nat
  gasUsed : Nat
deriving DecidableEq, Repr

/-- Strip trailing `'0'` characters, used to render the fractional part
of an ether amount the way Python `Decimal` prints it. -/
def trimZeros : List Char → List Char
  | [] => []
  | c :: cs =>
    match trimZeros cs with
    | [] => if c = '0' then [] else [c]
    | rest => c :: rest

/-- Models `web3.from_wei(v, 'ether')` rendered into an f-string: the
wei value divided by 10^18, printed as a decimal with trailing zeros
removed. -/
def from_wei_str (v : Nat) : String :=
  let whole := v / 10 ^ 18
  let frac := v % 10 ^ 18
  if frac = 0 then toString whole
  else
    let padded := toString (frac + 10 ^ 18)
    toString whole ++ "." ++ String.mk (trimZeros (padded.drop 1).data)

/-- Models `web3.to_wei(10, 'ether')` (line 85). -/
def ten_ether_wei : Nat := 10 * 10 ^ 18

/-- The high-value check of `analyze_transaction` (lines 84-91):
`tx_details.get('value', 0) > web3.to_wei(10, 'ether')`. -/
def rule_high_value (tx_details : TxDetails) : List Threat :=
  if ten_ether_wei < tx_details.value then
    [Threat.mk "high_value_transfer"
      ("High value transfer: " ++ from_wei_str tx_details.value ++ " ETH")]
  else []

/-- The failed-transaction check of `analyze_transaction` (lines 93-100):
`receipt and receipt.get('status') == 0`; a falsy (absent) receipt means
the rule does not fire. -/
def rule_failed_tx (tx_hash : String) (receipt : Option Receipt) : List Threat :=
  match receipt with
  | some r =>
    if r.status = 0 then
      [Threat.mk "failed_transaction" ("Failed transaction detected: " ++ tx_hash)]
    else []
  | none => []

/-- The high-gas check of `analyze_transaction` (lines 102-109):
`receipt and receipt.get('gasUsed', 0) > 1000000`; a falsy (absent)
receipt means the rule does not fire. -/
def rule_high_gas (receipt : Option Receipt) : List Threat :=
  match receipt with
  | some r =>
    if 1000000 < r.gasUsed then
      [Threat.mk "high_gas_usage"
        ("High gas usage: " ++ toString r.gasUsed ++ " gas")]
    else []
  | none => []

/-- `ContractMonitor.analyze_transaction` (lines 67-117). The two RPC
lookups `web3.eth.get_transaction` and `web3.eth.get_transaction_receipt`
are passed in as fallible functions; `Except.error` models the call
raising. The whole body sits in `try/except Exception`, so a missing
hash (the `.hex()` `AttributeError`) or a failing lookup yields the
threats accumulated so far, which is always the empty list because both
lookups precede every rule. The three rule blocks appear in source order
and append to the same `threats` list. -/
def analyze_transaction (lookupTx : String → Except Unit TxDetails)
    (lookupReceipt : String → Except Unit (Option Receipt))
    (tx : LogEntry) : List Threat :=
  match tx.transactionHash with
  | none => []
  | some tx_hash =>
    if tx_hash = "" then []
    else
      match lookupTx tx_hash with
      | Except.error _ => []
      | Except.ok tx_details =>
        match lookupReceipt tx_hash with
        | Except.error _ => []
        | Except.ok receipt =>
          rule_high_value tx_details ++ rule_failed_tx tx_hash receipt ++
            rule_high_gas receipt

/-- Outcome of one `web3.eth.get_logs` call: a list of entries, the
`BlockNotFound` exception, or any other exception (which the source does
not catch in `get_contract_transactions`). -/
inductive LogsResult where
  | ok (logs : List LogEntry)
  | blockNotFound
  | otherError
deriving DecidableEq, Repr

/-- `ContractMonitor.get_contract_transactions` (lines 43-65): two
`get_logs` calls in one `try`; `except BlockNotFound` returns `[]`; any
other exception propagates (`Except.error`); on success the two result
lists are concatenated. The first query runs before the second, so a
`BlockNotFound` from the second query discards the results of the first. -/
def get_contract_transactions (q1 q2 : LogsResult) : Except Unit (List LogEntry) :=
  match q1 with
  | LogsResult.blockNotFound => Except.ok []
  | LogsResult.otherError => Except.error ()
  | LogsResult.ok to_contract =>
    match q2 with
    | LogsResult.blockNotFound => Except.ok []
    | LogsResult.otherError => Except.error ()
    | LogsResult.ok from_contract => Except.ok (to_contract ++ from_contract)

/-- `ContractMonitor.get_sleep_time` (lines 247-256): the frequency
lookup table with default 300. -/
def get_sleep_time (frequency : String) : Nat :=
  if frequency = "1min" then 60
  else if frequency = "5min" then 300
  else if frequency = "15min" then 900
  else if frequency = "30min" then 1800
  else if frequency = "1hour" then 3600
  else 300

/-- `ContractMonitor.get_web3` (lines 27-41): resolve the network name to
a provider URL via `os.getenv` with the documented defaults; an unknown
network or an empty configured URL raises `ValueError`. Only success or
failure matters downstream, so the client itself is `Unit`. -/
def get_web3 (getenv : String → Option String) (network : String) :
    Except String Unit :=
  let provider_url : Option String :=
    if network = "ethereum" then
      some ((getenv "ETH_RPC_URL").getD "https://eth-mainnet.g.alchemy.com/v2/api-key")
    else if network = "base" then
      some ((getenv "BASE_RPC_URL").getD "https://mainnet.base.org")
    else if network = "base-sepolia" then
      some ((getenv "BASE_SEPOLIA_RPC_URL").getD "https://sepolia.base.org")
    else none
  match provider_url with
  | none => Except.error ("Unsupported network: " ++ network)
  | some url =>
    if url = "" then Except.error ("No RPC URL configured for network: " ++ network)
    else Except.ok ()

/-- Persisted database state visible to one monitor loop: the `Contract`
row for the monitored id (`none` once deleted) and the `Alert` table. -/
structure DB where
  contract : Option Contract
  alerts : List Alert
deriving DecidableEq, Repr

/-- In-process monitor state for one contract id: the persisted `DB` plus
the `last_processed_block` cursor entry for this id (`none` before the
first completed scan, matching `dict.get` returning no entry). -/
structure MonState where
  db : DB
  cursor : Option Int
deriving DecidableEq, Repr

/-- Observable events of one loop iteration, in order. `notify` records
the alert rows persisted in the database at the moment
`send_notifications` is invoked (the session adds are still pending
then); `emailSent` is one successful delivery; `commitOk`/`commitFailed`
is the outcome of `session.commit()`. -/
inductive Event where
  | notify (persistedAlerts : List Alert)
  | emailSent (addr : String) (message : String)
  | commitOk
  | commitFailed
deriving DecidableEq, Repr

/-- How the iteration ends: sleeping the configured frequency, the
60-second critical-error backoff of the outer `except` (line 224), or no
sleep at all (the `continue` at line 151). -/
inductive SleepKind where
  | freq (secs : Nat)
  | fallback60
  | noSleep
deriving DecidableEq, Repr

/-- Whether the loop continues (with some sleep behavior) or exits via
`break` because the contract row is gone. -/
inductive Outcome where
  | stopped
  | continued (sleep : SleepKind)
deriving DecidableEq, Repr

/-- Result of one iteration of the `while True` body: the database after
the iteration, the cursor entry after the iteration, the scan window
actually passed to `get_contract_transactions` (`none` when the fetch was
never reached), the ordered event trace, and the outcome. -/
structure IterResult where
  db : DB
  cursor : Option Int
  window : Option (Int × Int)
  events : List Event
  outcome : Outcome
deriving DecidableEq, Repr

/-- One iteration worth of external-world behavior: environment lookups
for `get_web3`, the chain height `web3.eth.block_number`, the length of
`web3.eth.get_code` at the address, whether `get_balance` succeeds, the
results of the two `get_logs` queries, the two per-hash RPC lookups used
by `analyze_transaction`, whether `session.commit()` succeeds, and the
notification collaborators (`AlertEmail` query outcome, subscriber list,
per-address delivery success). -/
structure MonitorEnv where
  getenv : String → Option String
  block_number : Int
  code_len : Nat
  balance_ok : Bool
  logsTo : LogsResult
  logsFrom : LogsResult
  lookupTx : String → Except Unit TxDetails
  lookupReceipt : String → Except Unit (Option Receipt)
  commit_ok : Bool
  email_query_ok : Bool
  emails : List String
  send_ok : String → Bool

/-- The message composed in `send_notifications` (lines 232-235). -/
def alert_message (address : String) (threats : List Threat) : String :=
  "Security threats detected for contract " ++ address ++ ":\n\n" ++
    String.intercalate "\n"
      (threats.map (fun t => "- " ++ t.type ++ ": " ++ t.description))

/-- `ContractMonitor.send_notifications` (lines 226-245) as its event
trace: if the `AlertEmail` query raises, the outer `except` swallows it
and no email is attempted; otherwise each subscriber is tried in order
and a per-recipient failure is logged and skipped. -/
def send_notifications (email_query_ok : Bool) (emails : List String)
    (send_ok : String → Bool) (address : String) (threats : List Threat) :
    List Event :=
  if email_query_ok then
    emails.filterMap fun e =>
      if send_ok e then some (Event.emailSent e (alert_message address threats))
      else none
  else []

/-- One iteration of the `while True` body of
`ContractMonitor.monitor_contract` (lines 125-224), for one contract id.
Control flow mirrors the source exactly:
- contract row absent: `break` (outcome `stopped`);
- `get_web3` raising escapes to the outer `except` (line 222): nothing
  changes, 60-second backoff (other pre-`try` failures such as a bad
  checksum take the same path; they are not separately modelled);
- empty code at the address: `continue` (line 151) — no cursor update,
  no database change, no sleep;
- `get_balance` raising, or a non-`BlockNotFound` `get_logs` exception,
  is caught by the inner `except` (line 214): cursor not updated,
  configured sleep still performed;
- no transactions, or transactions but zero threats: no database change,
  cursor advances to `current_block`;
- at least one threat: status and threat level set once, one alert per
  threat added to the session, `send_notifications` invoked, then
  `session.commit()`; on commit success the pending writes become
  persistent and the cursor advances; a commit failure is caught by the
  inner `except`, the scoped session discards the pending writes, and
  the cursor is not updated. -/
def monitor_iteration (env : MonitorEnv) (s : MonState) : IterResult :=
  match s.db.contract with
  | none => ⟨s.db, s.cursor, none, [], Outcome.stopped⟩
  | some contract =>
    match get_web3 env.getenv contract.network with
    | Except.error _ => ⟨s.db, s.cursor, none, [], Outcome.continued SleepKind.fallback60⟩
    | Except.ok _ =>
      let current_block := env.block_number
      let from_block := (s.cursor).getD (current_block - 100)
      let freqSleep :=
        Outcome.continued (SleepKind.freq (get_sleep_time contract.monitoring_frequency))
      if env.code_len = 0 then
        ⟨s.db, s.cursor, none, [], Outcome.continued SleepKind.noSleep⟩
      else if env.balance_ok then
        match get_contract_transactions env.logsTo env.logsFrom with
        | Except.error _ =>
          ⟨s.db, s.cursor, some (from_block, current_block), [], freqSleep⟩
        | Except.ok transactions =>
          if transactions = [] then
            ⟨s.db, some current_block, some (from_block, current_block), [], freqSleep⟩
          else
            let all_threats :=
              transactions.flatMap (analyze_transaction env.lookupTx env.lookupReceipt)
            if all_threats = [] then
              ⟨s.db, some current_block, some (from_block, current_block), [], freqSleep⟩
            else
              let contract' :=
                { contract with status := "Warning", threat_level := "Medium" }
              let newAlerts :=
                all_threats.map fun t => Alert.mk contract.id t.type t.description
              let events :=
                Event.notify s.db.alerts ::
                  send_notifications env.email_query_ok env.emails env.send_ok
                    contract.address all_threats
              if env.commit_ok then
                ⟨⟨some contract', s.db.alerts ++ newAlerts⟩, some current_block,
                  some (from_block, current_block), events ++ [Event.commitOk], freqSleep⟩
              else
                ⟨s.db, s.cursor, some (from_block, current_block),
                  events ++ [Event.commitFailed], freqSleep⟩
      else
        ⟨s.db, s.cursor, none, [], freqSleep⟩

/-- The next in-process state after one iteration. -/
def next_state (env : MonitorEnv) (s : MonState) : MonState :=
  let r := monitor_iteration env s
  ⟨r.db, r.cursor⟩

/-- `ContractMonitor.start_monitoring` (lines 258-271): the supervisor
registry is `self.monitors`, modelled as the list of registered contract
ids. The returned `Bool` is whether a new thread was spawned. Liveness of
the stored thread is never consulted: any existing entry, dead or alive,
makes the call a warning-only no-op. -/
def start_monitoring (monitors : List Nat) (contract_id : Nat) :
    List Nat × Bool :=
  if contract_id ∈ monitors then (monitors, false)
  else (monitors ++ [contract_id], true)

/-! ### Concrete fixtures used by counterexamples and witnesses -/

/-- A log entry with a present, non-empty transaction hash. -/
def txW : LogEntry := ⟨some "0xabc"⟩

/-- A monitored contract on the `base` network with frequency `5min`. -/
def contractW : Contract := ⟨1, "0xC0ffee", "base", "Normal", "Low", "5min"⟩

/-- Initial state: the contract row present, no alerts, no cursor entry. -/
def sW : MonState := ⟨⟨some contractW, []⟩, none⟩

/-- An environment whose single transaction carries 15 ETH (one
`high_value_transfer` threat), with all collaborators succeeding. -/
def envAlert : MonitorEnv :=
  ⟨fun _ => none, 1000, 2, true, LogsResult.ok [txW], LogsResult.ok [],
   fun _ => Except.ok ⟨15 * 10 ^ 18⟩, fun _ => Except.ok (some ⟨1, 50000⟩),
   true, true, ["ops@example.com"], fun _ => true⟩

/-- A quiet environment: no log entries, everything succeeds. -/
def envQuiet : MonitorEnv :=
  { envAlert with logsTo := LogsResult.ok [], logsFrom := LogsResult.ok [] }

/-- A transaction-details lookup returning a zero-value transfer. -/
def lookupTxZero : String → Except Unit TxDetails := fun _ => Except.ok ⟨0⟩

/-- A receipt lookup that finds no receipt (models a falsy receipt). -/
def lookupReceiptNone : String → Except Unit (Option Receipt) :=
  fun _ => Except.ok none

/-- A receipt lookup returning a successful receipt that burned
2,000,000 gas. -/
def lookupReceiptGas : String → Except Unit (Option Receipt) :=
  fun _ => Except.ok (some ⟨1, 2000000⟩)

/-- A state whose cursor already sits at block 900. -/
def sCur : MonState := ⟨⟨some contractW, []⟩, some 900⟩

/-- The quiet environment reporting a chain height of 50, lower than a
previously stored cursor: models an RPC endpoint whose reported height
regressed. -/
def envLow : MonitorEnv := { envQuiet with block_number := 50 }

/-- The quiet environment whose first log query raises `BlockNotFound`. -/
def envBNF : MonitorEnv := { envQuiet with logsTo := LogsResult.blockNotFound }

/-- The alerting environment, but no code is deployed at the address. -/
def envCode0 : MonitorEnv := { envAlert with code_len := 0 }

/-- The alerting environment, but every transaction carries zero value,
succeeds, and uses little gas: a scan with transactions yet zero
threats. -/
def envNoThreat : MonitorEnv := { envAlert with lookupTx := lookupTxZero }

/-- The alerting environment with a failing `session.commit()`. -/
def envCommitFail : MonitorEnv := { envAlert with commit_ok := false }

/-! ### Helper lemmas -/

/-- `rule_failed_tx` on a present receipt. -/
theorem rule_failed_tx_some (tx_hash : String) (r : Receipt) :
    rule_failed_tx tx_hash (some r) =
      if r.status = 0 then
        [Threat.mk "failed_transaction"
          ("Failed transaction detected: " ++ tx_hash)]
      else [] := rfl

/-- `rule_high_gas` on a present receipt. -/
theorem rule_high_gas_some (r : Receipt) :
    rule_high_gas (some r) =
      if 1000000 < r.gasUsed then
        [Threat.mk "high_gas_usage"
          ("High gas usage: " ++ toString r.gasUsed ++ " gas")]
      else [] := rfl

/-- Reduction of `analyze_transaction` when the hash is present and both
RPC lookups succeed. -/
theorem analyze_transaction_ok (lookupTx : String → Except Unit TxDetails)
    (lookupReceipt : String → Except Unit (Option Receipt)) (tx : LogEntry)
    (h : String) (d : TxDetails) (r : Option Receipt)
    (hh : tx.transactionHash = some h) (hne : ¬ h = "")
    (hlt : lookupTx h = Except.ok d) (hlr : lookupReceipt h = Except.ok r) :
    analyze_transaction lookupTx lookupReceipt tx =
      rule_high_value d ++ rule_failed_tx h r ++ rule_high_gas r := by
  unfold analyze_transaction
  rw [hh]
  dsimp only
  rw [if_neg hne, hlt]
  dsimp only
  rw [hlr]

/-- Reduction of one loop iteration on the empty-code path: the
`continue` at line 151. -/
theorem monitor_iteration_empty_code (env : MonitorEnv) (s : MonState)
    (c : Contract) (hc : s.db.contract = some c)
    (hw : get_web3 env.getenv c.network = Except.ok ())
    (hcode : env.code_len = 0) :
    monitor_iteration env s =
      ⟨s.db, s.cursor, none, [], Outcome.continued SleepKind.noSleep⟩ := by
  unfold monitor_iteration
  rw [hc]
  dsimp only
  rw [hw]
  dsimp only
  rw [if_pos hcode]

/-- Reduction of one loop iteration on a scan that finds zero threats
(either no transactions at all, or transactions none of which yields a
threat): the database is untouched and the cursor advances. -/
theorem monitor_iteration_no_threats (env : MonitorEnv) (s : MonState)
    (c : Contract) (txs : List LogEntry)
    (hc : s.db.contract = some c)
    (hw : get_web3 env.getenv c.network = Except.ok ())
    (hcode : ¬ env.code_len = 0)
    (hbal : env.balance_ok = true)
    (hfetch : get_contract_transactions env.logsTo env.logsFrom = Except.ok txs)
    (hthr : txs.flatMap (analyze_transaction env.lookupTx env.lookupReceipt) = []) :
    monitor_iteration env s =
      ⟨s.db, some env.block_number,
        some ((s.cursor).getD (env.block_number - 100), env.block_number), [],
        Outcome.continued
          (SleepKind.freq (get_sleep_time c.monitoring_frequency))⟩ := by
  unfold monitor_iteration
  rw [hc]
  dsimp only
  rw [hw]
  dsimp only
  rw [if_neg hcode, if_pos hbal, hfetch]
  dsimp only
  by_cases htx : txs = []
  · rw [if_pos htx]
  · rw [if_neg htx, if_pos hthr]

/-- Reduction of one loop iteration on the alerting path: at least one
threat across the fetched transactions. The session stages the status
update and one alert per threat, the notification dispatcher runs on the
still-unpersisted state, and only then is the commit attempted. -/
theorem monitor_iteration_alerting (env : MonitorEnv) (s : MonState)
    (c : Contract) (txs : List LogEntry)
    (hc : s.db.contract = some c)
    (hw : get_web3 env.getenv c.network = Except.ok ())
    (hcode : ¬ env.code_len = 0)
    (hbal : env.balance_ok = true)
    (hfetch : get_contract_transactions env.logsTo env.logsFrom = Except.ok txs)
    (hthr :
      ¬ txs.flatMap (analyze_transaction env.lookupTx env.lookupReceipt) = []) :
    monitor_iteration env s =
      (if env.commit_ok then
        ⟨⟨some { c with status := "Warning", threat_level := "Medium" },
            s.db.alerts ++
              (txs.flatMap
                (analyze_transaction env.lookupTx env.lookupReceipt)).map
                (fun t => Alert.mk c.id t.type t.description)⟩,
          some env.block_number,
          some ((s.cursor).getD (env.block_number - 100), env.block_number),
          (Event.notify s.db.alerts ::
            send_notifications env.email_query_ok env.emails env.send_ok
              c.address
              (txs.flatMap (analyze_transaction env.lookupTx env.lookupReceipt)))
            ++ [Event.commitOk],
          Outcome.continued
            (SleepKind.freq (get_sleep_time c.monitoring_frequency))⟩
      else
        ⟨s.db, s.cursor,
          some ((s.cursor).getD (env.block_number - 100), env.block_number),
          (Event.notify s.db.alerts ::
            send_notifications env.email_query_ok env.emails env.send_ok
              c.address
              (txs.flatMap (analyze_transaction env.lookupTx env.lookupReceipt)))
            ++ [Event.commitFailed],
          Outcome.continued
            (SleepKind.freq (get_sleep_time c.monitoring_frequency))⟩) := by
  have htx : ¬ txs = [] := by
    intro he
    rw [he] at hthr
    exact hthr rfl
  unfold monitor_iteration
  rw [hc]
  dsimp only
  rw [hw]
  dsimp only
  rw [if_neg hcode, if_pos hbal, hfetch]
  dsimp only
  rw [if_neg htx, if_neg hthr]

/-- In every branch of an iteration, the stored cursor either stays what
it was or becomes the height fetched this iteration. -/
theorem monitor_iteration_cursor (env : MonitorEnv) (s : MonState) :
    (monitor_iteration env s).cursor = s.cursor ∨
    (monitor_iteration env s).cursor = some env.block_number := by
  unfold monitor_iteration
  repeat' first
    | exact Or.inl rfl
    | exact Or.inr rfl
    | split
    | dsimp only

/-- In every branch of an iteration, the scan window, when one is used,
is exactly `[cursor-or-(height - 100), height]`. -/
theorem monitor_iteration_window (env : MonitorEnv) (s : MonState) :
    (monitor_iteration env s).window = none ∨
    (monitor_iteration env s).window =
      some ((s.cursor).getD (env.block_number - 100), env.block_number) := by
  unfold monitor_iteration
  repeat' first
    | exact Or.inl rfl
    | exact Or.inr rfl
    | split
    | dsimp only

/-! ### Claims about the threat evaluator -/

/-- C3: threat evaluation of a single transaction is total (the embedding
is a Lean function, so it cannot raise), a missing hash or a failing RPC
lookup yields zero threats, and a missing receipt merely disables the two
receipt-dependent rules: every threat still produced is
`high_value_transfer`. -/
theorem C3_fail_open (lookupTx : String → Except Unit TxDetails)
    (lookupReceipt : String → Except Unit (Option Receipt)) (tx : LogEntry) :
    (tx.transactionHash = none →
      analyze_transaction lookupTx lookupReceipt tx = []) ∧
    (∀ h, tx.transactionHash = some h →
      (lookupTx h = Except.error () →
        analyze_transaction lookupTx lookupReceipt tx = []) ∧
      (lookupReceipt h = Except.error () →
        analyze_transaction lookupTx lookupReceipt tx = []) ∧
      (∀ d, lookupTx h = Except.ok d → lookupReceipt h = Except.ok none →
        ∀ t ∈ analyze_transaction lookupTx lookupReceipt tx,
          t.type = "high_value_transfer")) := by
  constructor
  · intro hh
    unfold analyze_transaction
    rw [hh]
  · intro h hh
    refine ⟨?_, ?_, ?_⟩
    · intro herr
      unfold analyze_transaction
      rw [hh]
      dsimp only
      by_cases hne : h = ""
      · rw [if_pos hne]
      · rw [if_neg hne, herr]
    · intro herr
      unfold analyze_transaction
      rw [hh]
      dsimp only
      by_cases hne : h = ""
      · rw [if_pos hne]
      · rw [if_neg hne]
        cases hlt : lookupTx h with
        | error e => rfl
        | ok d => dsimp only; rw [herr]
    · intro d hlt hlr t ht
      by_cases hne : h = ""
      · exfalso
        unfold analyze_transaction at ht
        rw [hh] at ht
        dsimp only at ht
        rw [if_pos hne] at ht
        simp at ht
      · rw [analyze_transaction_ok lookupTx lookupReceipt tx h d none hh hne hlt hlr]
          at ht
        simp only [rule_failed_tx, rule_high_gas, List.append_nil] at ht
        unfold rule_high_value at ht
        split at ht
        · simp at ht
          rw [ht]
        · simp at ht

/-- C6: with a present receipt, gas strictly above 1,000,000 yields a
`high_gas_usage` threat whose description carries the gas value, and gas
exactly 1,000,000 yields no `high_gas_usage` threat at all. -/
theorem C6_high_gas_rule (lookupTx : String → Except Unit TxDetails)
    (lookupReceipt : String → Except Unit (Option Receipt)) (tx : LogEntry)
    (h : String) (d : TxDetails) (rc : Receipt)
    (hh : tx.transactionHash = some h) (hne : ¬ h = "")
    (hlt : lookupTx h = Except.ok d)
    (hlr : lookupReceipt h = Except.ok (some rc)) :
    (1000000 < rc.gasUsed →
      Threat.mk "high_gas_usage"
          ("High gas usage: " ++ toString rc.gasUsed ++ " gas") ∈
        analyze_transaction lookupTx lookupReceipt tx) ∧
    (rc.gasUsed = 1000000 →
      ∀ t ∈ analyze_transaction lookupTx lookupReceipt tx,
        ¬ t.type = "high_gas_usage") := by
  constructor
  · intro hgas
    rw [analyze_transaction_ok lookupTx lookupReceipt tx h d (some rc) hh hne hlt hlr,
      rule_high_gas_some, if_pos hgas]
    simp
  · intro hgas t ht
    rw [analyze_transaction_ok lookupTx lookupReceipt tx h d (some rc) hh hne hlt hlr,
      rule_high_gas_some] at ht
    have hnotgas : ¬ 1000000 < rc.gasUsed := by omega
    rw [if_neg hnotgas] at ht
    simp only [List.append_nil, List.mem_append] at ht
    rcases ht with ht | ht
    · unfold rule_high_value at ht
      split at ht
      · simp at ht
        rw [ht]
        dsimp only
        decide
      · simp at ht
    · rw [rule_failed_tx_some] at ht
      split at ht
      · simp at ht
        rw [ht]
        dsimp only
        decide
      · simp at ht

/-- Witness for `C3_fail_open`: the missing-hash entry with concrete
lookups, so the hypotheses inside the conjunction are dischargeable. -/
theorem C3_fail_open_witness :
    ((⟨none⟩ : LogEntry).transactionHash = none →
      analyze_transaction lookupTxZero lookupReceiptNone ⟨none⟩ = []) ∧
    (∀ h, (⟨none⟩ : LogEntry).transactionHash = some h →
      (lookupTxZero h = Except.error () →
        analyze_transaction lookupTxZero lookupReceiptNone ⟨none⟩ = []) ∧
      (lookupReceiptNone h = Except.error () →
        analyze_transaction lookupTxZero lookupReceiptNone ⟨none⟩ = []) ∧
      (∀ d, lookupTxZero h = Except.ok d →
        lookupReceiptNone h = Except.ok none →
        ∀ t ∈ analyze_transaction lookupTxZero lookupReceiptNone ⟨none⟩,
          t.type = "high_value_transfer")) :=
  C3_fail_open lookupTxZero lookupReceiptNone ⟨none⟩

/-- Witness for `C6_high_gas_rule`: a receipt with gasUsed 2,000,000. -/
theorem C6_high_gas_rule_witness :
    (1000000 < (⟨1, 2000000⟩ : Receipt).gasUsed →
      Threat.mk "high_gas_usage"
          ("High gas usage: " ++
            toString (⟨1, 2000000⟩ : Receipt).gasUsed ++ " gas") ∈
        analyze_transaction lookupTxZero lookupReceiptGas txW) ∧
    ((⟨1, 2000000⟩ : Receipt).gasUsed = 1000000 →
      ∀ t ∈ analyze_transaction lookupTxZero lookupReceiptGas txW,
        ¬ t.type = "high_gas_usage") :=
  C6_high_gas_rule lookupTxZero lookupReceiptGas txW "0xabc" ⟨0⟩ ⟨1, 2000000⟩
    rfl (by decide) rfl rfl

/-! ### Claims about the monitor loop -/

/-- C1 counterexample: in a concrete alerting scan (one 15 ETH transfer,
all collaborators succeeding) the first event of the iteration is the
invocation of the notification dispatcher at a moment when the persisted
alert table is still empty; the commit happens strictly later, and only
then does the new alert row become persistent. So the dispatcher does
not run on already-persisted alert state, contrary to the claim. -/
theorem C1_counterexample :
    ((monitor_iteration envAlert sW).events).head? = some (Event.notify []) ∧
    Event.commitOk ∈ ((monitor_iteration envAlert sW).events).drop 1 ∧
    ¬ (monitor_iteration envAlert sW).db.alerts = [] := by decide

/-- C1 amended: in the Alerting path the Notification Dispatcher is
invoked BEFORE the commit, on session-pending alert state (the persisted
alert table at invocation time is still the old one); the single commit
afterwards persists the alert rows and the status update atomically, so
a commit failure leaves no partial alert state visible in the database —
but notifications may already have gone out for alerts that were never
persisted. -/
theorem C1_notify_precedes_commit (env : MonitorEnv) (s : MonState)
    (c : Contract) (txs : List LogEntry)
    (hc : s.db.contract = some c)
    (hw : get_web3 env.getenv c.network = Except.ok ())
    (hcode : ¬ env.code_len = 0)
    (hbal : env.balance_ok = true)
    (hfetch : get_contract_transactions env.logsTo env.logsFrom = Except.ok txs)
    (hthr :
      ¬ txs.flatMap (analyze_transaction env.lookupTx env.lookupReceipt) = []) :
    ((monitor_iteration env s).events).head? = some (Event.notify s.db.alerts) ∧
    (env.commit_ok = true →
      ((monitor_iteration env s).events).getLast? = some Event.commitOk ∧
      (monitor_iteration env s).db.alerts =
        s.db.alerts ++
          (txs.flatMap (analyze_transaction env.lookupTx env.lookupReceipt)).map
            (fun t => Alert.mk c.id t.type t.description)) ∧
    (env.commit_ok = false →
      ((monitor_iteration env s).events).getLast? = some Event.commitFailed ∧
      (monitor_iteration env s).db = s.db) := by
  rw [monitor_iteration_alerting env s c txs hc hw hcode hbal hfetch hthr]
  cases hco : env.commit_ok with
  | true =>
    rw [if_pos rfl]
    refine ⟨rfl, fun _ => ⟨?_, rfl⟩, fun hfalse => absurd hfalse (by decide)⟩
    dsimp only
    rw [List.getLast?_concat]
  | false =>
    rw [if_neg (by simp)]
    refine ⟨rfl, fun htrue => absurd htrue (by decide), fun _ => ⟨?_, rfl⟩⟩
    dsimp only
    rw [List.getLast?_concat]

/-- Witness for `C1_notify_precedes_commit` at the concrete alerting
environment with a succeeding commit. -/
theorem C1_notify_precedes_commit_witness :
    ((monitor_iteration envAlert sW).events).head? =
      some (Event.notify sW.db.alerts) ∧
    (envAlert.commit_ok = true →
      ((monitor_iteration envAlert sW).events).getLast? = some Event.commitOk ∧
      (monitor_iteration envAlert sW).db.alerts =
        sW.db.alerts ++
          (([txW].flatMap
            (analyze_transaction envAlert.lookupTx envAlert.lookupReceipt)).map
            (fun t => Alert.mk contractW.id t.type t.description))) ∧
    (envAlert.commit_ok = false →
      ((monitor_iteration envAlert sW).events).getLast? =
        some Event.commitFailed ∧
      (monitor_iteration envAlert sW).db = sW.db) :=
  C1_notify_precedes_commit envAlert sW contractW [txW] rfl rfl (by decide)
    rfl rfl (by decide)

/-- C2: in the alerting path with a succeeding commit, the contract row
ends with status `Warning` and threat level `Medium` (assigned once, the
other fields untouched, independent of the threat count), and the alert
table grows by exactly one row per threat found across the window. -/
theorem C2_status_and_alert_rows (env : MonitorEnv) (s : MonState)
    (c : Contract) (txs : List LogEntry)
    (hc : s.db.contract = some c)
    (hw : get_web3 env.getenv c.network = Except.ok ())
    (hcode : ¬ env.code_len = 0)
    (hbal : env.balance_ok = true)
    (hfetch : get_contract_transactions env.logsTo env.logsFrom = Except.ok txs)
    (hthr :
      ¬ txs.flatMap (analyze_transaction env.lookupTx env.lookupReceipt) = [])
    (hcommit : env.commit_ok = true) :
    (monitor_iteration env s).db.contract =
      some { c with status := "Warning", threat_level := "Medium" } ∧
    (monitor_iteration env s).db.alerts.length =
      s.db.alerts.length +
        (txs.flatMap (analyze_transaction env.lookupTx env.lookupReceipt)).length := by
  rw [monitor_iteration_alerting env s c txs hc hw hcode hbal hfetch hthr,
    if_pos hcommit]
  refine ⟨rfl, ?_⟩
  dsimp only
  rw [List.length_append, List.length_map]

/-- Witness for `C2_status_and_alert_rows` at the concrete alerting
environment: one threat, one new alert row. -/
theorem C2_status_and_alert_rows_witness :
    (monitor_iteration envAlert sW).db.contract =
      some { contractW with status := "Warning", threat_level := "Medium" } ∧
    (monitor_iteration envAlert sW).db.alerts.length =
      sW.db.alerts.length +
        ([txW].flatMap
          (analyze_transaction envAlert.lookupTx envAlert.lookupReceipt)).length :=
  C2_status_and_alert_rows envAlert sW contractW [txW] rfl rfl (by decide)
    rfl rfl (by decide) rfl

/-- C4 counterexample: the cursor is NOT monotonically non-decreasing in
general. Two quiet iterations in which the fetched chain height first
reads 1000 and then reads 50 (a regressing RPC height) store cursor 1000
and then cursor 50, which is smaller. -/
theorem C4_counterexample :
    (next_state envQuiet sW).cursor = some 1000 ∧
    (next_state envLow (next_state envQuiet sW)).cursor = some 50 ∧
    ¬ ((1000 : Int) ≤ 50) := by decide

/-- C4 amended: provided every height the loop observes is at least the
stored cursor (chain height never regresses), the cursor is monotone
non-decreasing across an iteration, and every scan window actually used
is exactly `[cursor-or-(height - 100), height]`. -/
theorem C4_cursor_monotone (env : MonitorEnv) (s : MonState)
    (hmono : ∀ h, s.cursor = some h → h ≤ env.block_number) :
    (∀ h h2, s.cursor = some h →
      (monitor_iteration env s).cursor = some h2 → h ≤ h2) ∧
    (∀ w1 w2, (monitor_iteration env s).window = some (w1, w2) →
      w1 = (s.cursor).getD (env.block_number - 100) ∧
      w2 = env.block_number) := by
  constructor
  · intro h h2 hs hres
    rcases monitor_iteration_cursor env s with hcur | hcur
    · rw [hcur, hs] at hres
      injection hres with he
      exact le_of_eq he
    · rw [hcur] at hres
      injection hres with he
      rw [← he]
      exact hmono h hs
  · intro w1 w2 hwin2
    rcases monitor_iteration_window env s with hwin | hwin
    · rw [hwin] at hwin2
      exact Option.noConfusion hwin2
    · rw [hwin] at hwin2
      simp only [Option.some.injEq, Prod.mk.injEq] at hwin2
      exact ⟨hwin2.1.symm, hwin2.2.symm⟩

/-- Witness for `C4_cursor_monotone`: cursor 900, height 1000. -/
theorem C4_cursor_monotone_witness :
    (∀ h h2, sCur.cursor = some h →
      (monitor_iteration envQuiet sCur).cursor = some h2 → h ≤ h2) ∧
    (∀ w1 w2, (monitor_iteration envQuiet sCur).window = some (w1, w2) →
      w1 = (sCur.cursor).getD (envQuiet.block_number - 100) ∧
      w2 = envQuiet.block_number) :=
  C4_cursor_monotone envQuiet sCur
    (fun h hh => by
      injection hh with he
      rw [← he]
      decide)

/-- C5: when the log query hits `BlockNotFound`, the fetch returns the
empty list rather than propagating, the iteration leaves the database
untouched, emits no events, still advances the cursor to the fetched
height, and ends in the ordinary configured sleep (no exception path). -/
theorem C5_block_range_soft_fail (env : MonitorEnv) (s : MonState)
    (c : Contract)
    (hc : s.db.contract = some c)
    (hw : get_web3 env.getenv c.network = Except.ok ())
    (hcode : ¬ env.code_len = 0)
    (hbal : env.balance_ok = true)
    (hlogs : env.logsTo = LogsResult.blockNotFound) :
    get_contract_transactions env.logsTo env.logsFrom = Except.ok [] ∧
    (monitor_iteration env s).db = s.db ∧
    (monitor_iteration env s).cursor = some env.block_number ∧
    (monitor_iteration env s).events = [] ∧
    (monitor_iteration env s).outcome =
      Outcome.continued (SleepKind.freq (get_sleep_time c.monitoring_frequency)) := by
  have hfetch : get_contract_transactions env.logsTo env.logsFrom =
      Except.ok [] := by
    rw [hlogs]
    rfl
  rw [monitor_iteration_no_threats env s c [] hc hw hcode hbal hfetch rfl]
  exact ⟨hfetch, rfl, rfl, rfl, rfl⟩

/-- Witness for `C5_block_range_soft_fail` at the concrete environment
whose first log query raises `BlockNotFound`. -/
theorem C5_block_range_soft_fail_witness :
    get_contract_transactions envBNF.logsTo envBNF.logsFrom = Except.ok [] ∧
    (monitor_iteration envBNF sW).db = sW.db ∧
    (monitor_iteration envBNF sW).cursor = some envBNF.block_number ∧
    (monitor_iteration envBNF sW).events = [] ∧
    (monitor_iteration envBNF sW).outcome =
      Outcome.continued
        (SleepKind.freq (get_sleep_time contractW.monitoring_frequency)) :=
  C5_block_range_soft_fail envBNF sW contractW rfl rfl (by decide) rfl rfl

/-- C7: a scan that finds zero threats — in particular one with no
transactions at all — leaves the contract row (status and threat level
included) and the alert table exactly as they were. -/
theorem C7_no_threats_frame (env : MonitorEnv) (s : MonState)
    (c : Contract) (txs : List LogEntry)
    (hc : s.db.contract = some c)
    (hw : get_web3 env.getenv c.network = Except.ok ())
    (hcode : ¬ env.code_len = 0)
    (hbal : env.balance_ok = true)
    (hfetch : get_contract_transactions env.logsTo env.logsFrom = Except.ok txs)
    (hthr :
      txs.flatMap (analyze_transaction env.lookupTx env.lookupReceipt) = []) :
    (monitor_iteration env s).db.contract = s.db.contract ∧
    (monitor_iteration env s).db.alerts = s.db.alerts := by
  rw [monitor_iteration_no_threats env s c txs hc hw hcode hbal hfetch hthr]
  exact ⟨rfl, rfl⟩

/-- Witness for `C7_no_threats_frame`: a scan with one transaction that
triggers no rule (zero value, successful receipt, low gas). -/
theorem C7_no_threats_frame_witness :
    (monitor_iteration envNoThreat sW).db.contract = sW.db.contract ∧
    (monitor_iteration envNoThreat sW).db.alerts = sW.db.alerts :=
  C7_no_threats_frame envNoThreat sW contractW [txW] rfl rfl (by decide)
    rfl rfl (by decide)

/-- C8: with empty deployed code the iteration takes the `continue`: the
database (contract row included) is untouched, the cursor entry is not
updated, no events are emitted, and the outcome is continuing with NO
sleep — the loop re-checks immediately rather than crashing. -/
theorem C8_empty_code_skip (env : MonitorEnv) (s : MonState)
    (c : Contract)
    (hc : s.db.contract = some c)
    (hw : get_web3 env.getenv c.network = Except.ok ())
    (hcode : env.code_len = 0) :
    (monitor_iteration env s).db = s.db ∧
    (monitor_iteration env s).cursor = s.cursor ∧
    (monitor_iteration env s).events = [] ∧
    (monitor_iteration env s).outcome =
      Outcome.continued SleepKind.noSleep := by
  rw [monitor_iteration_empty_code env s c hc hw hcode]
  exact ⟨rfl, rfl, rfl, rfl⟩

/-- Witness for `C8_empty_code_skip`: the alerting environment with no
code at the address. -/
theorem C8_empty_code_skip_witness :
    (monitor_iteration envCode0 sW).db = sW.db ∧
    (monitor_iteration envCode0 sW).cursor = sW.cursor ∧
    (monitor_iteration envCode0 sW).events = [] ∧
    (monitor_iteration envCode0 sW).outcome =
      Outcome.continued SleepKind.noSleep :=
  C8_empty_code_skip envCode0 sW contractW rfl rfl rfl

/-- C9: supervisor start is idempotent. After a first `start_monitoring`
call the id is registered; a second call returns the registry unchanged
and spawns nothing; and when the id was not yet registered (the dict
invariant of `self.monitors`), the registry afterwards holds exactly one
entry for it. -/
theorem C9_start_idempotent (m : List Nat) (cid : Nat) :
    start_monitoring (start_monitoring m cid).1 cid =
      ((start_monitoring m cid).1, false) ∧
    cid ∈ (start_monitoring m cid).1 ∧
    (List.count cid m = 0 →
      List.count cid (start_monitoring m cid).1 = 1) := by
  by_cases hm : cid ∈ m
  · have h1 : start_monitoring m cid = (m, false) := by
      rw [start_monitoring, if_pos hm]
    refine ⟨?_, ?_, ?_⟩
    · rw [h1]
      exact h1
    · rw [h1]
      exact hm
    · intro hz
      exact absurd hm (List.count_eq_zero.mp hz)
  · have h1 : start_monitoring m cid = (m ++ [cid], true) := by
      rw [start_monitoring, if_neg hm]
    refine ⟨?_, ?_, ?_⟩
    · rw [h1]
      rw [start_monitoring, if_pos (by simp)]
    · rw [h1]
      simp
    · intro hz
      rw [h1]
      dsimp only
      rw [List.count_append, hz]
      simp

/-- Witness for `C9_start_idempotent`: an empty registry and id 7. -/
theorem C9_start_idempotent_witness :
    start_monitoring (start_monitoring [] 7).1 7 =
      ((start_monitoring [] 7).1, false) ∧
    7 ∈ (start_monitoring [] 7).1 ∧
    (List.count 7 ([] : List Nat) = 0 →
      List.count 7 (start_monitoring [] 7).1 = 1) :=
  C9_start_idempotent [] 7

/-- C10: if the first (contract-as-recipient) log query succeeds with
any result list and the second (contract-as-sender) query raises
`BlockNotFound`, the fetch returns the empty list: the first query
results are discarded. -/
theorem C10_first_query_discarded (l : List LogEntry) :
    get_contract_transactions (LogsResult.ok l) LogsResult.blockNotFound =
      Except.ok [] := rfl

end ContractMonitor
